import Mathlib

/-!
# Remote peering connection resource

A shallow embedding of `oci/core_remote_peering_connection_resource.go`:
the `RemotePeeringConnectionResourceCrud` synchronizer, its connect step,
`Update`, `SetData`, the entry point `createRemotePeeringConnection` and the
pending-status-aware retry policy.

Conventions of the embedding.

* A Go pointer field (`*string`, `*bool`, `*SDKTime`) is an `Option`; `nil` is `none`.
* A Go `error` result is an `Option GoError`; `nil` is `none`.
* `schema.ResourceData` is a record typed by the schema declared in
  `RemotePeeringConnectionResource`: one optional cell per attribute.
  `GetOkExists(k)` reads the cell (`none` is `ok = false`), `Set(k, v)` writes it.
* The remote service is a deterministic function of the calls issued so far
  and of the request; every call issued through the client is appended to a log.
* A nil-pointer dereference is an explicit `Panic` outcome.
-/

namespace RemotePeering

/-- Go `error` value, carried by what its `Error()` method prints. -/
structure GoError where
  message : String
deriving DecidableEq, Repr

/-- Run-time panic of the Go program. -/
inductive Panic where
  | nilPointerDereference
deriving DecidableEq, Repr

/-- Go `time.Duration`: a signed count of nanoseconds. -/
abbrev Duration := Int

/-- Go `time.Time`, as a signed count of nanoseconds since the epoch. -/
abbrev Time := Int

/-- The SDK time type `oci_common.SDKTime`: an instant together with the text its
`String()` method prints. -/
structure SDKTime where
  unixNano : Int
  rendered : String
deriving DecidableEq, Repr

/-- The method `SDKTime.String()`. -/
def SDKTime.String (t : SDKTime) : String := t.rendered

/-! ## Remote data model (`oci_core`) -/

/-- Enum type `oci_core.RemotePeeringConnectionPeeringStatusEnum`, a Go `string` type. -/
abbrev RemotePeeringConnectionPeeringStatusEnum := String

/-- Enum type `oci_core.RemotePeeringConnectionLifecycleStateEnum`, a Go `string` type. -/
abbrev RemotePeeringConnectionLifecycleStateEnum := String

/-- Constant `oci_core.RemotePeeringConnectionPeeringStatusInvalid`. -/
def RemotePeeringConnectionPeeringStatusInvalid : RemotePeeringConnectionPeeringStatusEnum := "INVALID"

/-- Constant `oci_core.RemotePeeringConnectionPeeringStatusNew`. -/
def RemotePeeringConnectionPeeringStatusNew : RemotePeeringConnectionPeeringStatusEnum := "NEW"

/-- Constant `oci_core.RemotePeeringConnectionPeeringStatusPending`. -/
def RemotePeeringConnectionPeeringStatusPending : RemotePeeringConnectionPeeringStatusEnum := "PENDING"

/-- Constant `oci_core.RemotePeeringConnectionPeeringStatusPeered`. -/
def RemotePeeringConnectionPeeringStatusPeered : RemotePeeringConnectionPeeringStatusEnum := "PEERED"

/-- Constant `oci_core.RemotePeeringConnectionPeeringStatusRevoked`. -/
def RemotePeeringConnectionPeeringStatusRevoked : RemotePeeringConnectionPeeringStatusEnum := "REVOKED"

/-- Constant `oci_core.RemotePeeringConnectionLifecycleStateAvailable`. -/
def RemotePeeringConnectionLifecycleStateAvailable : RemotePeeringConnectionLifecycleStateEnum := "AVAILABLE"

/-- Constant `oci_core.RemotePeeringConnectionLifecycleStateProvisioning`. -/
def RemotePeeringConnectionLifecycleStateProvisioning : RemotePeeringConnectionLifecycleStateEnum := "PROVISIONING"

/-- Constant `oci_core.RemotePeeringConnectionLifecycleStateTerminating`. -/
def RemotePeeringConnectionLifecycleStateTerminating : RemotePeeringConnectionLifecycleStateEnum := "TERMINATING"

/-- Constant `oci_core.RemotePeeringConnectionLifecycleStateTerminated`. -/
def RemotePeeringConnectionLifecycleStateTerminated : RemotePeeringConnectionLifecycleStateEnum := "TERMINATED"

/-- The remote entity `oci_core.RemotePeeringConnection`, with the fields the resource reads. -/
structure RemotePeeringConnection where
  CompartmentId : Option String
  DisplayName : Option String
  DrgId : Option String
  Id : Option String
  IsCrossTenancyPeering : Option Bool
  LifecycleState : RemotePeeringConnectionLifecycleStateEnum
  PeerId : Option String
  PeerRegionName : Option String
  PeerTenancyId : Option String
  PeeringStatus : RemotePeeringConnectionPeeringStatusEnum
  TimeCreated : Option SDKTime
deriving DecidableEq, Repr

/-- Which retry policy constructor a request's `RequestMetadata.RetryPolicy` was built with. -/
inductive RetryPolicyRef where
  /-- Result of `getRetryPolicy(disableNotFoundRetries, service)`. -/
  | getRetryPolicy (disableNotFoundRetries : Bool) (service : String)
  /-- Result of `getRemotePeeringConnectionRetryPolicy(timeout)`. -/
  | getRemotePeeringConnectionRetryPolicy (timeout : Duration)
deriving DecidableEq, Repr

/-- Request `oci_core.ConnectRemotePeeringConnectionsRequest`; a field left untouched is `none`. -/
structure ConnectRemotePeeringConnectionsRequest where
  RemotePeeringConnectionId : Option String := none
  PeerId : Option String := none
  PeerRegionName : Option String := none
  RetryPolicy : Option RetryPolicyRef := none
deriving DecidableEq, Repr

/-- Request `oci_core.GetRemotePeeringConnectionRequest`. -/
structure GetRemotePeeringConnectionRequest where
  RemotePeeringConnectionId : Option String := none
  RetryPolicy : Option RetryPolicyRef := none
deriving DecidableEq, Repr

/-- Request `oci_core.UpdateRemotePeeringConnectionRequest`. -/
structure UpdateRemotePeeringConnectionRequest where
  RemotePeeringConnectionId : Option String := none
  DisplayName : Option String := none
  RetryPolicy : Option RetryPolicyRef := none
deriving DecidableEq, Repr

/-- Response `oci_core.ConnectRemotePeeringConnectionsResponse`; the resource discards it. -/
structure ConnectRemotePeeringConnectionsResponse where
  OpcRequestId : Option String := none
deriving DecidableEq, Repr

/-- Response `oci_core.GetRemotePeeringConnectionResponse`, embedding the fetched entity. -/
structure GetRemotePeeringConnectionResponse where
  RemotePeeringConnection : RemotePeeringConnection
deriving DecidableEq, Repr

/-- Response `oci_core.UpdateRemotePeeringConnectionResponse`, embedding the updated entity. -/
structure UpdateRemotePeeringConnectionResponse where
  RemotePeeringConnection : RemotePeeringConnection
deriving DecidableEq, Repr

/-- Promoted field `PeeringStatus` of the embedded entity of a get response. -/
def GetRemotePeeringConnectionResponse.PeeringStatus (r : GetRemotePeeringConnectionResponse) :
    RemotePeeringConnectionPeeringStatusEnum :=
  r.RemotePeeringConnection.PeeringStatus

/-! ## The remote client -/

/-- One call issued against the remote service. -/
inductive RemoteCall where
  | ConnectRemotePeeringConnections (request : ConnectRemotePeeringConnectionsRequest)
  | GetRemotePeeringConnection (request : GetRemotePeeringConnectionRequest)
  | UpdateRemotePeeringConnection (request : UpdateRemotePeeringConnectionRequest)
deriving DecidableEq, Repr

/-- The client `oci_core.VirtualNetworkClient`: the log of the calls issued so far (oldest
first) and, for each operation, what the remote service answers given that log and the
request. The answer of `GetRemotePeeringConnection` is the one the SDK hands back once the
request's retry policy has stopped retrying. -/
structure VirtualNetworkClient where
  calls : List RemoteCall
  connectAnswer : List RemoteCall → ConnectRemotePeeringConnectionsRequest →
    Except GoError ConnectRemotePeeringConnectionsResponse
  getAnswer : List RemoteCall → GetRemotePeeringConnectionRequest →
    Except GoError GetRemotePeeringConnectionResponse
  updateAnswer : List RemoteCall → UpdateRemotePeeringConnectionRequest →
    Except GoError UpdateRemotePeeringConnectionResponse

/-- Client method `ConnectRemotePeeringConnections(ctx, request)`: answer and logged call. -/
def VirtualNetworkClient.ConnectRemotePeeringConnections (c : VirtualNetworkClient)
    (request : ConnectRemotePeeringConnectionsRequest) :
    Except GoError ConnectRemotePeeringConnectionsResponse × VirtualNetworkClient :=
  (c.connectAnswer c.calls request,
    { c with calls := c.calls ++ [RemoteCall.ConnectRemotePeeringConnections request] })

/-- Client method `GetRemotePeeringConnection(ctx, request)`: answer and logged call. -/
def VirtualNetworkClient.GetRemotePeeringConnection (c : VirtualNetworkClient)
    (request : GetRemotePeeringConnectionRequest) :
    Except GoError GetRemotePeeringConnectionResponse × VirtualNetworkClient :=
  (c.getAnswer c.calls request,
    { c with calls := c.calls ++ [RemoteCall.GetRemotePeeringConnection request] })

/-- Client method `UpdateRemotePeeringConnection(ctx, request)`: answer and logged call. -/
def VirtualNetworkClient.UpdateRemotePeeringConnection (c : VirtualNetworkClient)
    (request : UpdateRemotePeeringConnectionRequest) :
    Except GoError UpdateRemotePeeringConnectionResponse × VirtualNetworkClient :=
  (c.updateAnswer c.calls request,
    { c with calls := c.calls ++ [RemoteCall.UpdateRemotePeeringConnection request] })

/-- The provider handle `OracleClients`, with the one client this resource uses. -/
structure OracleClients where
  virtualNetworkClient : VirtualNetworkClient

/-! ## Local state (`schema.ResourceData`) -/

/-- Local attribute store `schema.ResourceData` for the schema of
`RemotePeeringConnectionResource`: the resource id, one optional cell per declared
attribute and the create timeout. `GetOkExists` tests existence, not the zero value:
`none` is an attribute it reports absent, `some ""` a string attribute set to the empty
string, which it reports present. `Set(k, v)` overwrites the cell of `k` with `some v`. -/
structure ResourceData where
  id : String
  compartment_id : Option String
  drg_id : Option String
  display_name : Option String
  peer_id : Option String
  peer_region_name : Option String
  is_cross_tenancy_peering : Option Bool
  peer_tenancy_id : Option String
  peering_status : Option String
  state : Option String
  time_created : Option String
  timeoutCreate : Duration
deriving DecidableEq, Repr

/-- Method `d.Id()`. -/
def ResourceData.Id (d : ResourceData) : String := d.id

/-- Method `d.Timeout(schema.TimeoutCreate)`. -/
def ResourceData.TimeoutCreate (d : ResourceData) : Duration := d.timeoutCreate

/-- Method `d.GetOkExists("peer_id")` as the pair Go returns: the value, which is the zero
value `""` when the attribute is absent, and whether the attribute exists. -/
def ResourceData.GetOkExistsPeerId (d : ResourceData) : String × Bool :=
  match d.peer_id with
  | some v => (v, true)
  | none => ("", false)

/-- The synchronizer `RemotePeeringConnectionResourceCrud`. -/
structure RemotePeeringConnectionResourceCrud where
  D : ResourceData
  Client : VirtualNetworkClient
  Res : Option RemotePeeringConnection
  DisableNotFoundRetries : Bool

/-! ## Operations of the synchronizer -/

/-- Error built by `fmt.Errorf` at the identity guard of `ConnectRemotePeeringConnection`. -/
def errNilRemotePeeringConnection : GoError :=
  ⟨"CreateRemotePeeringConnection returned a nil RemotePeeringConnection or a RemotePeeringConnection without an ID"⟩

/-- Error built by `fmt.Errorf` when the fetched peering status is not `PEERED`; the verb
`%s` is replaced by `string(PeeringStatus)`. -/
def errUnexpectedPeeringStatus (status : RemotePeeringConnectionPeeringStatusEnum) : GoError :=
  ⟨"unexpected Peering Status `" ++ status ++
    "` after trying to connect to the peer Remote Peering Connection (RPC). Make sure the peering_status of the peer RPC is not REVOKED"⟩

/-- The writes `SetData` performs on the local store for a non-nil `s.Res`, in source order. -/
def SetDataFields (res : RemotePeeringConnection) (d : ResourceData) : ResourceData :=
  let d := match res.CompartmentId with
    | some v => { d with compartment_id := some v }
    | none => d
  let d := match res.DisplayName with
    | some v => { d with display_name := some v }
    | none => d
  let d := match res.DrgId with
    | some v => { d with drg_id := some v }
    | none => d
  let d := match res.IsCrossTenancyPeering with
    | some v => { d with is_cross_tenancy_peering := some v }
    | none => d
  let d := match res.PeerId with
    | some v => { d with peer_id := some v }
    | none => d
  let d := match res.PeerRegionName with
    | some v => { d with peer_region_name := some v }
    | none => d
  let d := match res.PeerTenancyId with
    | some v => { d with peer_tenancy_id := some v }
    | none => d
  let d := { d with peering_status := some res.PeeringStatus }
  let d := { d with state := some res.LifecycleState }
  let d := match res.TimeCreated with
    | some t => { d with time_created := some t.String }
    | none => d
  d

/-- Method `SetData()`: dereferences `s.Res` (a panic when it is nil), copies the fetched
fields into the local store and returns a nil error. -/
def SetData (s : RemotePeeringConnectionResourceCrud) :
    Except Panic (Option GoError × RemotePeeringConnectionResourceCrud) :=
  match s.Res with
  | none => Except.error Panic.nilPointerDereference
  | some res => Except.ok (none, { s with D := SetDataFields res s.D })

/-- The request `ConnectRemotePeeringConnection` builds once the identity `resId`
(the pointer `s.Res.Id`) and the local peer id `peerId` are known. -/
def connectRequest (s : RemotePeeringConnectionResourceCrud) (resId : Option String)
    (peerId : String) : ConnectRemotePeeringConnectionsRequest :=
  { PeerId := some peerId
    RemotePeeringConnectionId := resId
    PeerRegionName := s.D.peer_region_name
    RetryPolicy := some (RetryPolicyRef.getRetryPolicy s.DisableNotFoundRetries "core") }

/-- The follow-up fetch request of `ConnectRemotePeeringConnection`. -/
def connectGetRequest (s : RemotePeeringConnectionResourceCrud) :
    GetRemotePeeringConnectionRequest :=
  { RemotePeeringConnectionId := some s.D.Id
    RetryPolicy := some (RetryPolicyRef.getRemotePeeringConnectionRetryPolicy s.D.TimeoutCreate) }

/-- Method `ConnectRemotePeeringConnection()`: the returned error (`none` is nil) and the
synchronizer afterwards. -/
def ConnectRemotePeeringConnection (s : RemotePeeringConnectionResourceCrud) :
    Except Panic (Option GoError × RemotePeeringConnectionResourceCrud) :=
  match s.Res with
  | none => Except.ok (some errNilRemotePeeringConnection, s)
  | some res =>
    match res.Id with
    | none => Except.ok (some errNilRemotePeeringConnection, s)
    | some _ =>
      match s.D.peer_id with
      | none => Except.ok (none, s)
      | some peerId =>
        match s.Client.ConnectRemotePeeringConnections (connectRequest s res.Id peerId) with
        | (Except.error err, client1) =>
          Except.ok (some err,
            { s with Client := client1, D := { s.D with peer_id := some "" } })
        | (Except.ok _, client1) =>
          match client1.GetRemotePeeringConnection (connectGetRequest s) with
          | (Except.error getError, client2) =>
            Except.ok (some getError, { s with Client := client2 })
          | (Except.ok response, client2) =>
            let s1 : RemotePeeringConnectionResourceCrud :=
              { s with Client := client2, Res := some response.RemotePeeringConnection }
            if response.RemotePeeringConnection.PeeringStatus ≠
                RemotePeeringConnectionPeeringStatusPeered then
              Except.ok
                (some (errUnexpectedPeeringStatus response.RemotePeeringConnection.PeeringStatus),
                  { s1 with D := { s1.D with peer_id := some "" } })
            else
              match SetData s1 with
              | Except.error p => Except.error p
              | Except.ok (some err, s2) => Except.ok (some err, s2)
              | Except.ok (none, s2) => Except.ok (none, s2)

/-- The request `Update` builds. -/
def updateRequest (s : RemotePeeringConnectionResourceCrud) :
    UpdateRemotePeeringConnectionRequest :=
  { DisplayName := s.D.display_name
    RemotePeeringConnectionId := some s.D.Id
    RetryPolicy := some (RetryPolicyRef.getRetryPolicy s.DisableNotFoundRetries "core") }

/-- Method `Update()`. -/
def Update (s : RemotePeeringConnectionResourceCrud) :
    Option GoError × RemotePeeringConnectionResourceCrud :=
  match s.Client.UpdateRemotePeeringConnection (updateRequest s) with
  | (Except.error err, client1) => (some err, { s with Client := client1 })
  | (Except.ok response, client1) =>
    (none, { s with Client := client1, Res := some response.RemotePeeringConnection })

/-- Entry point `createRemotePeeringConnection(d, m)`. The helper `CreateResource(d, sync)`
is declared outside this file and is taken as a parameter: it returns its error and the
synchronizer (local store included) as it leaves it. -/
def createRemotePeeringConnection
    (CreateResource : RemotePeeringConnectionResourceCrud →
      Option GoError × RemotePeeringConnectionResourceCrud)
    (d : ResourceData) (m : OracleClients) :
    Except Panic (Option GoError × RemotePeeringConnectionResourceCrud) :=
  let sync : RemotePeeringConnectionResourceCrud :=
    { D := d, Client := m.virtualNetworkClient, Res := none, DisableNotFoundRetries := false }
  match CreateResource sync with
  | (some err, sync1) => Except.ok (some err, sync1)
  | (none, sync1) => ConnectRemotePeeringConnection sync1

/-! ## The pending-status-aware retry policy -/

/-- What `response.Response` of an `oci_common.OCIOperationResponse` holds: a
`GetRemotePeeringConnectionResponse` value, or anything else (another type, or nil). -/
inductive OCIResponse where
  | GetRemotePeeringConnectionResponse (r : GetRemotePeeringConnectionResponse)
  | other
deriving DecidableEq, Repr

/-- Operation response `oci_common.OCIOperationResponse`. -/
structure OCIOperationResponse where
  Response : OCIResponse
  Error : Option GoError
  AttemptNumber : Nat
deriving DecidableEq, Repr

/-- The helpers of the provider the policy calls, declared outside this file, and the
clock: `timeNow` is what `time.Now()` returns when the policy is built;
`getElapsedRetryDuration t` is the time elapsed since `t` when the decision is taken. -/
structure RetryHelpers where
  timeNow : Time
  shouldRetry : OCIOperationResponse → Bool → String → Time → Bool
  getElapsedRetryDuration : Time → Duration
  getRetryBackoffDuration : OCIOperationResponse → Bool → String → Time → Duration

/-- Retry policy `oci_common.RetryPolicy`. -/
structure RetryPolicy where
  ShouldRetryOperation : OCIOperationResponse → Bool
  NextDuration : OCIOperationResponse → Duration
  MaximumNumberAttempts : Nat

/-- Constructor `getRemotePeeringConnectionRetryPolicy(timeout)`. -/
def getRemotePeeringConnectionRetryPolicy (h : RetryHelpers) (timeout : Duration) :
    RetryPolicy :=
  let startTime := h.timeNow
  { ShouldRetryOperation := fun response =>
      if h.shouldRetry response false "core" startTime then
        true
      else
        match response.Response with
        | OCIResponse.GetRemotePeeringConnectionResponse getRemotePeeringConnectionResponse =>
          if getRemotePeeringConnectionResponse.PeeringStatus =
              RemotePeeringConnectionPeeringStatusPending then
            let timeWaited := h.getElapsedRetryDuration startTime
            decide (timeWaited < timeout)
          else
            false
        | OCIResponse.other => false
    NextDuration := fun response => h.getRetryBackoffDuration response false "core" startTime
    MaximumNumberAttempts := 0 }

/-! ## Vocabulary of the statements -/

/-- The text `sub` occurs in the text `msg`. -/
def Mentions (msg sub : String) : Prop :=
  ∃ before after : String, msg = before ++ sub ++ after

/-- Outcome of refreshing one optional attribute from a fetched pointer field: the
fetched value when there is one, the previous local value otherwise. -/
def Refreshed {α : Type} (fetched previous current : Option α) : Prop :=
  (∀ v, fetched = some v → current = some v) ∧ (fetched = none → current = previous)

/-- The synchronizer `createRemotePeeringConnection` starts from. -/
def newSync (d : ResourceData) (m : OracleClients) : RemotePeeringConnectionResourceCrud :=
  { D := d, Client := m.virtualNetworkClient, Res := none, DisableNotFoundRetries := false }

/-- The calls issued between two snapshots of a client's log. -/
def callsIssued (before after : VirtualNetworkClient) : List RemoteCall :=
  after.calls.drop before.calls.length

/-- The client after the attach call of a connect has been logged. -/
def afterAttach (s : RemotePeeringConnectionResourceCrud) (id peerId : String) :
    VirtualNetworkClient :=
  { s.Client with calls := s.Client.calls ++
      [RemoteCall.ConnectRemotePeeringConnections (connectRequest s (some id) peerId)] }

/-- The client after the attach call and the follow-up fetch have been logged. -/
def afterFetch (s : RemotePeeringConnectionResourceCrud) (id peerId : String) :
    VirtualNetworkClient :=
  { s.Client with calls := s.Client.calls ++
      [RemoteCall.ConnectRemotePeeringConnections (connectRequest s (some id) peerId),
       RemoteCall.GetRemotePeeringConnection (connectGetRequest s)] }

/-! ## Concrete inputs -/

/-- A local store as it stands after a create with a peer configured. -/
def exampleData : ResourceData :=
  { id := "ocid1.rpc.local"
    compartment_id := some "ocid1.compartment"
    drg_id := some "ocid1.drg"
    display_name := some "rpc"
    peer_id := some "ocid1.rpc.peer"
    peer_region_name := some "us-ashburn-1"
    is_cross_tenancy_peering := none
    peer_tenancy_id := none
    peering_status := none
    state := none
    time_created := none
    timeoutCreate := 1200000000000 }

/-- A remote entity with the given peering status; its peer region is not reported. -/
def exampleConnection (status : RemotePeeringConnectionPeeringStatusEnum) :
    RemotePeeringConnection :=
  { CompartmentId := some "ocid1.compartment"
    DisplayName := some "rpc-remote"
    DrgId := some "ocid1.drg"
    Id := some "ocid1.rpc.local"
    IsCrossTenancyPeering := some false
    LifecycleState := RemotePeeringConnectionLifecycleStateAvailable
    PeerId := some "ocid1.rpc.peer"
    PeerRegionName := none
    PeerTenancyId := some "ocid1.tenancy.peer"
    PeeringStatus := status
    TimeCreated := some ⟨1546300800000000000, "2019-01-01 00:00:00 +0000 UTC"⟩ }

/-- A remote service with fixed answers: `attach` for the connect call, `fetch` for the
get call; an update echoes the requested display name. -/
def exampleClient (attach : Option GoError) (fetch : Except GoError RemotePeeringConnection) :
    VirtualNetworkClient :=
  { calls := []
    connectAnswer := fun _ _ =>
      match attach with
      | some e => Except.error e
      | none => Except.ok {}
    getAnswer := fun _ _ =>
      match fetch with
      | Except.error e => Except.error e
      | Except.ok c => Except.ok ⟨c⟩
    updateAnswer := fun _ request =>
      Except.ok ⟨{ exampleConnection RemotePeeringConnectionPeeringStatusNew with
        DisplayName := request.DisplayName }⟩ }

/-- A synchronizer whose identity is set, over the given store and client. -/
def exampleSync (d : ResourceData) (c : VirtualNetworkClient) :
    RemotePeeringConnectionResourceCrud :=
  { D := d
    Client := c
    Res := some (exampleConnection RemotePeeringConnectionPeeringStatusNew)
    DisableNotFoundRetries := false }

/-- A remote error. -/
def exampleError : GoError := ⟨"Service error:InternalServerError. http status code: 500"⟩

/-- A `CreateResource` that records the created entity on success and leaves the
synchronizer as it is on failure. -/
def exampleCreateResource (failure : Option GoError)
    (sync : RemotePeeringConnectionResourceCrud) :
    Option GoError × RemotePeeringConnectionResourceCrud :=
  match failure with
  | some e => (some e, sync)
  | none =>
    (none, { sync with Res := some (exampleConnection RemotePeeringConnectionPeeringStatusNew) })

/-! ## Shared lemmas -/

theorem callsIssued_afterAttach (s : RemotePeeringConnectionResourceCrud) (id peerId : String) :
    callsIssued s.Client (afterAttach s id peerId) =
      [RemoteCall.ConnectRemotePeeringConnections (connectRequest s (some id) peerId)] := by
  simp [callsIssued, afterAttach]

theorem callsIssued_afterFetch (s : RemotePeeringConnectionResourceCrud) (id peerId : String) :
    callsIssued s.Client (afterFetch s id peerId) =
      [RemoteCall.ConnectRemotePeeringConnections (connectRequest s (some id) peerId),
       RemoteCall.GetRemotePeeringConnection (connectGetRequest s)] := by
  simp [callsIssued, afterFetch]

theorem callsIssued_self (c : VirtualNetworkClient) : callsIssued c c = [] := by
  simp [callsIssued]

theorem mentions_status (status : RemotePeeringConnectionPeeringStatusEnum) :
    Mentions (errUnexpectedPeeringStatus status).message status :=
  ⟨"unexpected Peering Status `",
    "` after trying to connect to the peer Remote Peering Connection (RPC). Make sure the peering_status of the peer RPC is not REVOKED",
    rfl⟩

theorem connect_attach_failed (s : RemotePeeringConnectionResourceCrud)
    (res : RemotePeeringConnection) (id peerId : String) (e : GoError)
    (hRes : s.Res = some res) (hId : res.Id = some id) (hPeer : s.D.peer_id = some peerId)
    (hAttach : s.Client.connectAnswer s.Client.calls (connectRequest s (some id) peerId) =
      Except.error e) :
    ConnectRemotePeeringConnection s =
      Except.ok (some e,
        { s with Client := afterAttach s id peerId, D := { s.D with peer_id := some "" } }) := by
  unfold ConnectRemotePeeringConnection
  simp only [hRes, hId, hPeer, VirtualNetworkClient.ConnectRemotePeeringConnections, hAttach,
    afterAttach]

theorem connect_fetch_failed (s : RemotePeeringConnectionResourceCrud)
    (res : RemotePeeringConnection) (id peerId : String)
    (r : ConnectRemotePeeringConnectionsResponse) (e : GoError)
    (hRes : s.Res = some res) (hId : res.Id = some id) (hPeer : s.D.peer_id = some peerId)
    (hAttach : s.Client.connectAnswer s.Client.calls (connectRequest s (some id) peerId) =
      Except.ok r)
    (hGet : s.Client.getAnswer (afterAttach s id peerId).calls (connectGetRequest s) =
      Except.error e) :
    ConnectRemotePeeringConnection s =
      Except.ok (some e, { s with Client := afterFetch s id peerId }) := by
  unfold ConnectRemotePeeringConnection
  simp only [afterAttach] at hGet
  simp [hRes, hId, hPeer, VirtualNetworkClient.ConnectRemotePeeringConnections, hAttach,
    VirtualNetworkClient.GetRemotePeeringConnection, hGet, afterFetch]

theorem connect_not_peered (s : RemotePeeringConnectionResourceCrud)
    (res : RemotePeeringConnection) (id peerId : String)
    (r : ConnectRemotePeeringConnectionsResponse) (response : GetRemotePeeringConnectionResponse)
    (hRes : s.Res = some res) (hId : res.Id = some id) (hPeer : s.D.peer_id = some peerId)
    (hAttach : s.Client.connectAnswer s.Client.calls (connectRequest s (some id) peerId) =
      Except.ok r)
    (hGet : s.Client.getAnswer (afterAttach s id peerId).calls (connectGetRequest s) =
      Except.ok response)
    (hStatus : response.RemotePeeringConnection.PeeringStatus ≠
      RemotePeeringConnectionPeeringStatusPeered) :
    ConnectRemotePeeringConnection s =
      Except.ok
        (some (errUnexpectedPeeringStatus response.RemotePeeringConnection.PeeringStatus),
          { s with
            Client := afterFetch s id peerId
            Res := some response.RemotePeeringConnection
            D := { s.D with peer_id := some "" } }) := by
  unfold ConnectRemotePeeringConnection
  simp only [afterAttach] at hGet
  simp [hRes, hId, hPeer, VirtualNetworkClient.ConnectRemotePeeringConnections, hAttach,
    VirtualNetworkClient.GetRemotePeeringConnection, hGet, afterFetch, hStatus]

theorem connect_peered (s : RemotePeeringConnectionResourceCrud)
    (res : RemotePeeringConnection) (id peerId : String)
    (r : ConnectRemotePeeringConnectionsResponse) (response : GetRemotePeeringConnectionResponse)
    (hRes : s.Res = some res) (hId : res.Id = some id) (hPeer : s.D.peer_id = some peerId)
    (hAttach : s.Client.connectAnswer s.Client.calls (connectRequest s (some id) peerId) =
      Except.ok r)
    (hGet : s.Client.getAnswer (afterAttach s id peerId).calls (connectGetRequest s) =
      Except.ok response)
    (hStatus : response.RemotePeeringConnection.PeeringStatus =
      RemotePeeringConnectionPeeringStatusPeered) :
    ConnectRemotePeeringConnection s =
      Except.ok
        (none,
          { s with
            Client := afterFetch s id peerId
            Res := some response.RemotePeeringConnection
            D := SetDataFields response.RemotePeeringConnection s.D }) := by
  unfold ConnectRemotePeeringConnection
  simp only [afterAttach] at hGet
  simp [hRes, hId, hPeer, VirtualNetworkClient.ConnectRemotePeeringConnections, hAttach,
    VirtualNetworkClient.GetRemotePeeringConnection, hGet, afterFetch, hStatus, SetData]

theorem connect_no_res (s : RemotePeeringConnectionResourceCrud) (hRes : s.Res = none) :
    ConnectRemotePeeringConnection s = Except.ok (some errNilRemotePeeringConnection, s) := by
  unfold ConnectRemotePeeringConnection
  simp only [hRes]

theorem connect_no_id (s : RemotePeeringConnectionResourceCrud) (res : RemotePeeringConnection)
    (hRes : s.Res = some res) (hId : res.Id = none) :
    ConnectRemotePeeringConnection s = Except.ok (some errNilRemotePeeringConnection, s) := by
  unfold ConnectRemotePeeringConnection
  simp only [hRes, hId]

theorem connect_no_peer (s : RemotePeeringConnectionResourceCrud) (res : RemotePeeringConnection)
    (id : String) (hRes : s.Res = some res) (hId : res.Id = some id)
    (hPeer : s.D.peer_id = none) :
    ConnectRemotePeeringConnection s = Except.ok (none, s) := by
  unfold ConnectRemotePeeringConnection
  simp only [hRes, hId, hPeer]

/-- The connect step always returns (it never panics) and only appends to the call log. -/
theorem connect_returns (s : RemotePeeringConnectionResourceCrud) :
    ∃ out s1 new, ConnectRemotePeeringConnection s = Except.ok (out, s1) ∧
      s1.Client.calls = s.Client.calls ++ new := by
  cases hRes : s.Res with
  | none => exact ⟨_, _, [], connect_no_res s hRes, by simp⟩
  | some res =>
    cases hId : res.Id with
    | none => exact ⟨_, _, [], connect_no_id s res hRes hId, by simp⟩
    | some id =>
      cases hPeer : s.D.peer_id with
      | none => exact ⟨_, _, [], connect_no_peer s res id hRes hId hPeer, by simp⟩
      | some peerId =>
        cases hAttach : s.Client.connectAnswer s.Client.calls
            (connectRequest s (some id) peerId) with
        | error e =>
          exact ⟨_, _, _, connect_attach_failed s res id peerId e hRes hId hPeer hAttach, rfl⟩
        | ok r =>
          cases hGet : s.Client.getAnswer (afterAttach s id peerId).calls
              (connectGetRequest s) with
          | error e =>
            exact ⟨_, _, _,
              connect_fetch_failed s res id peerId r e hRes hId hPeer hAttach hGet, rfl⟩
          | ok response =>
            by_cases hStatus : response.RemotePeeringConnection.PeeringStatus =
                RemotePeeringConnectionPeeringStatusPeered
            · exact ⟨_, _, _,
                connect_peered s res id peerId r response hRes hId hPeer hAttach hGet hStatus,
                rfl⟩
            · exact ⟨_, _, _,
                connect_not_peered s res id peerId r response hRes hId hPeer hAttach hGet
                  hStatus, rfl⟩

/-! ## The claims -/

/-- C1. When the identity and the local peer id are set and the attach call returns an
error `e`, the connect step returns exactly `e`, the local `peer_id` is the empty string
afterwards, and the attach call is the only remote call issued: no fetch follows. -/
theorem connect_propagates_attach_error (s : RemotePeeringConnectionResourceCrud)
    (res : RemotePeeringConnection) (id peerId : String) (e : GoError)
    (hRes : s.Res = some res) (hId : res.Id = some id) (hPeer : s.D.peer_id = some peerId)
    (hAttach : s.Client.connectAnswer s.Client.calls (connectRequest s (some id) peerId) =
      Except.error e) :
    ∃ s1, ConnectRemotePeeringConnection s = Except.ok (some e, s1) ∧
      s1.D.peer_id = some "" ∧
      callsIssued s.Client s1.Client =
        [RemoteCall.ConnectRemotePeeringConnections (connectRequest s (some id) peerId)] ∧
      ∀ request, RemoteCall.GetRemotePeeringConnection request ∉ callsIssued s.Client s1.Client :=
  ⟨_, connect_attach_failed s res id peerId e hRes hId hPeer hAttach, rfl,
    callsIssued_afterAttach s id peerId, by
      intro request
      show _ ∉ callsIssued s.Client (afterAttach s id peerId)
      rw [callsIssued_afterAttach]
      simp⟩

/-- C1 at a concrete input: the attach call fails with a service error. -/
theorem connect_propagates_attach_error_witness :
    ∃ s1, ConnectRemotePeeringConnection
        (exampleSync exampleData (exampleClient (some exampleError) (Except.error exampleError))) =
          Except.ok (some exampleError, s1) ∧
      s1.D.peer_id = some "" ∧
      callsIssued (exampleSync exampleData
          (exampleClient (some exampleError) (Except.error exampleError))).Client s1.Client =
        [RemoteCall.ConnectRemotePeeringConnections
          (connectRequest (exampleSync exampleData
            (exampleClient (some exampleError) (Except.error exampleError)))
            (some "ocid1.rpc.local") "ocid1.rpc.peer")] ∧
      ∀ request, RemoteCall.GetRemotePeeringConnection request ∉
        callsIssued (exampleSync exampleData
          (exampleClient (some exampleError) (Except.error exampleError))).Client s1.Client :=
  connect_propagates_attach_error
    (exampleSync exampleData (exampleClient (some exampleError) (Except.error exampleError)))
    (exampleConnection RemotePeeringConnectionPeeringStatusNew)
    "ocid1.rpc.local" "ocid1.rpc.peer" exampleError rfl rfl rfl rfl

/-- C2. When the attach call succeeds and the follow-up fetch returns a connection whose
peering status is anything other than `PEERED`, the connect step returns an error whose
message contains the observed status, and the local `peer_id` is the empty string
afterwards. -/
theorem connect_fails_when_not_peered (s : RemotePeeringConnectionResourceCrud)
    (res : RemotePeeringConnection) (id peerId : String)
    (r : ConnectRemotePeeringConnectionsResponse) (response : GetRemotePeeringConnectionResponse)
    (hRes : s.Res = some res) (hId : res.Id = some id) (hPeer : s.D.peer_id = some peerId)
    (hAttach : s.Client.connectAnswer s.Client.calls (connectRequest s (some id) peerId) =
      Except.ok r)
    (hGet : s.Client.getAnswer (afterAttach s id peerId).calls (connectGetRequest s) =
      Except.ok response)
    (hStatus : response.RemotePeeringConnection.PeeringStatus ≠
      RemotePeeringConnectionPeeringStatusPeered) :
    ∃ err s1, ConnectRemotePeeringConnection s = Except.ok (some err, s1) ∧
      Mentions err.message response.RemotePeeringConnection.PeeringStatus ∧
      s1.D.peer_id = some "" :=
  ⟨_, _, connect_not_peered s res id peerId r response hRes hId hPeer hAttach hGet hStatus,
    mentions_status _, rfl⟩

/-- C2 at a concrete input: the fetch reports `REVOKED`. -/
theorem connect_fails_when_not_peered_witness :
    ∃ err s1, ConnectRemotePeeringConnection
        (exampleSync exampleData (exampleClient none
          (Except.ok (exampleConnection RemotePeeringConnectionPeeringStatusRevoked)))) =
          Except.ok (some err, s1) ∧
      Mentions err.message "REVOKED" ∧
      s1.D.peer_id = some "" :=
  connect_fails_when_not_peered
    (exampleSync exampleData (exampleClient none
      (Except.ok (exampleConnection RemotePeeringConnectionPeeringStatusRevoked))))
    (exampleConnection RemotePeeringConnectionPeeringStatusNew)
    "ocid1.rpc.local" "ocid1.rpc.peer" {}
    ⟨exampleConnection RemotePeeringConnectionPeeringStatusRevoked⟩ rfl rfl rfl rfl rfl
    (by decide)

/-- C3, evaluated where it fails: the attach call succeeds and the follow-up fetch itself
returns an error. The connect step issues both calls, returns the fetch error, and the
local `peer_id` still holds the configured peer: it is not the empty string. -/
theorem connect_fetch_error_keeps_peer_id :
    ∃ s1, ConnectRemotePeeringConnection
        (exampleSync exampleData (exampleClient none (Except.error exampleError))) =
          Except.ok (some exampleError, s1) ∧
      s1.D.peer_id = some "ocid1.rpc.peer" ∧
      s1.D.peer_id ≠ some "" ∧
      callsIssued (exampleSync exampleData
          (exampleClient none (Except.error exampleError))).Client s1.Client =
        [RemoteCall.ConnectRemotePeeringConnections
          { RemotePeeringConnectionId := some "ocid1.rpc.local"
            PeerId := some "ocid1.rpc.peer"
            PeerRegionName := some "us-ashburn-1"
            RetryPolicy := some (RetryPolicyRef.getRetryPolicy false "core") },
         RemoteCall.GetRemotePeeringConnection
          { RemotePeeringConnectionId := some "ocid1.rpc.local"
            RetryPolicy :=
              some (RetryPolicyRef.getRemotePeeringConnectionRetryPolicy 1200000000000) }] :=
  ⟨_, connect_fetch_failed
      (exampleSync exampleData (exampleClient none (Except.error exampleError)))
      (exampleConnection RemotePeeringConnectionPeeringStatusNew)
      "ocid1.rpc.local" "ocid1.rpc.peer" {} exampleError rfl rfl rfl rfl rfl,
    rfl, by decide, rfl⟩

/-- C4. When `s.Res` is nil or `s.Res.Id` is nil the connect step returns an error and the
synchronizer is exactly as before: no remote call is logged and every local attribute,
`peer_id` included, is unchanged. -/
theorem connect_requires_identity (s : RemotePeeringConnectionResourceCrud)
    (h : s.Res = none ∨ ∃ res, s.Res = some res ∧ res.Id = none) :
    ConnectRemotePeeringConnection s = Except.ok (some errNilRemotePeeringConnection, s) ∧
      callsIssued s.Client s.Client = [] := by
  rcases h with hRes | ⟨res, hRes, hId⟩
  · exact ⟨connect_no_res s hRes, callsIssued_self _⟩
  · exact ⟨connect_no_id s res hRes hId, callsIssued_self _⟩

/-- C4 at a concrete input: a synchronizer whose `Res` was never set. -/
theorem connect_requires_identity_witness :
    ConnectRemotePeeringConnection
        (newSync exampleData ⟨exampleClient none (Except.error exampleError)⟩) =
          Except.ok (some errNilRemotePeeringConnection,
            newSync exampleData ⟨exampleClient none (Except.error exampleError)⟩) ∧
      callsIssued (newSync exampleData ⟨exampleClient none (Except.error exampleError)⟩).Client
        (newSync exampleData ⟨exampleClient none (Except.error exampleError)⟩).Client = [] :=
  connect_requires_identity
    (newSync exampleData ⟨exampleClient none (Except.error exampleError)⟩) (Or.inl rfl)

/-- C10. When the identity is set and `peer_id` is not set locally, the connect step
returns success and the synchronizer is exactly as before: no attach, no fetch, `s.Res`
and every local attribute unchanged. -/
theorem connect_without_peer_is_noop (s : RemotePeeringConnectionResourceCrud)
    (res : RemotePeeringConnection) (id : String)
    (hRes : s.Res = some res) (hId : res.Id = some id) (hPeer : s.D.peer_id = none) :
    ConnectRemotePeeringConnection s = Except.ok (none, s) ∧
      callsIssued s.Client s.Client = [] :=
  ⟨connect_no_peer s res id hRes hId hPeer, callsIssued_self _⟩

/-- C10 at a concrete input: the same store with `peer_id` absent. -/
theorem connect_without_peer_is_noop_witness :
    ConnectRemotePeeringConnection
        (exampleSync { exampleData with peer_id := none }
          (exampleClient (some exampleError) (Except.error exampleError))) =
      Except.ok (none,
        exampleSync { exampleData with peer_id := none }
          (exampleClient (some exampleError) (Except.error exampleError))) ∧
      callsIssued
        (exampleSync { exampleData with peer_id := none }
          (exampleClient (some exampleError) (Except.error exampleError))).Client
        (exampleSync { exampleData with peer_id := none }
          (exampleClient (some exampleError) (Except.error exampleError))).Client = [] :=
  connect_without_peer_is_noop
    (exampleSync { exampleData with peer_id := none }
      (exampleClient (some exampleError) (Except.error exampleError)))
    (exampleConnection RemotePeeringConnectionPeeringStatusNew) "ocid1.rpc.local" rfl rfl rfl

/-- C5, refuted at a concrete input: the identity is set and `peer_id` is not set, so the
value `GetOkExists` hands the connect step is the empty string. The connect step issues
no call, and what it returns is nil: it does not return an error. -/
theorem connect_empty_unset_peer_id_returns_nil :
    (exampleSync { exampleData with peer_id := none }
        (exampleClient none
          (Except.ok
            (exampleConnection RemotePeeringConnectionPeeringStatusPeered)))).D.GetOkExistsPeerId =
      ("", false) ∧
    ConnectRemotePeeringConnection
        (exampleSync { exampleData with peer_id := none }
          (exampleClient none
            (Except.ok (exampleConnection RemotePeeringConnectionPeeringStatusPeered)))) =
      Except.ok (none,
        exampleSync { exampleData with peer_id := none }
          (exampleClient none
            (Except.ok (exampleConnection RemotePeeringConnectionPeeringStatusPeered)))) :=
  ⟨rfl, connect_no_peer
      (exampleSync { exampleData with peer_id := none }
        (exampleClient none
          (Except.ok (exampleConnection RemotePeeringConnectionPeeringStatusPeered))))
      (exampleConnection RemotePeeringConnectionPeeringStatusNew) "ocid1.rpc.local"
      rfl rfl rfl⟩

/-- C5 as amended. When the identity is set and `GetOkExists` hands the connect step the
empty string for `peer_id` and reports the attribute absent, the connect step issues no
remote call, the attach call in particular, and returns nil rather than an error; the
synchronizer is left as it was. -/
theorem connect_skips_empty_unset_peer_id (s : RemotePeeringConnectionResourceCrud)
    (res : RemotePeeringConnection) (id : String)
    (hRes : s.Res = some res) (hId : res.Id = some id)
    (hPeer : s.D.GetOkExistsPeerId = ("", false)) :
    ∃ s1, ConnectRemotePeeringConnection s = Except.ok (none, s1) ∧
      s1 = s ∧
      callsIssued s.Client s1.Client = [] ∧
      ∀ request,
        RemoteCall.ConnectRemotePeeringConnections request ∉ callsIssued s.Client s1.Client := by
  have hNone : s.D.peer_id = none := by
    cases hp : s.D.peer_id with
    | none => rfl
    | some v => simp [ResourceData.GetOkExistsPeerId, hp] at hPeer
  refine ⟨s, connect_no_peer s res id hRes hId hNone, rfl, callsIssued_self _, ?_⟩
  intro request
  rw [callsIssued_self]
  simp

/-- C5 as amended, at a concrete input: the store of a create with no peer configured,
over a remote service whose attach call would succeed. -/
theorem connect_skips_empty_unset_peer_id_witness :
    ∃ s1, ConnectRemotePeeringConnection
        (exampleSync { exampleData with peer_id := none, peer_region_name := none }
          (exampleClient none
            (Except.ok (exampleConnection RemotePeeringConnectionPeeringStatusPeered)))) =
          Except.ok (none, s1) ∧
      s1 = exampleSync { exampleData with peer_id := none, peer_region_name := none }
          (exampleClient none
            (Except.ok (exampleConnection RemotePeeringConnectionPeeringStatusPeered))) ∧
      callsIssued
        (exampleSync { exampleData with peer_id := none, peer_region_name := none }
          (exampleClient none
            (Except.ok
              (exampleConnection RemotePeeringConnectionPeeringStatusPeered)))).Client
        s1.Client = [] ∧
      ∀ request, RemoteCall.ConnectRemotePeeringConnections request ∉
        callsIssued
          (exampleSync { exampleData with peer_id := none, peer_region_name := none }
            (exampleClient none
              (Except.ok
                (exampleConnection RemotePeeringConnectionPeeringStatusPeered)))).Client
          s1.Client :=
  connect_skips_empty_unset_peer_id
    (exampleSync { exampleData with peer_id := none, peer_region_name := none }
      (exampleClient none
        (Except.ok (exampleConnection RemotePeeringConnectionPeeringStatusPeered))))
    (exampleConnection RemotePeeringConnectionPeeringStatusNew) "ocid1.rpc.local" rfl rfl rfl

/-- C6. When the identity and `peer_id` are set, the attach call succeeds and the fetch
returns a connection with peering status `PEERED`, the connect step returns no error,
`s.Res` is the fetched connection, `peering_status` is `PEERED`, `state` is the fetched
lifecycle state, and each optional attribute holds the fetched value when one is present
(for `time_created`, its `String()` text) and its previous local value otherwise. -/
theorem connect_success_persists_observed_state (s : RemotePeeringConnectionResourceCrud)
    (res : RemotePeeringConnection) (id peerId : String)
    (r : ConnectRemotePeeringConnectionsResponse) (response : GetRemotePeeringConnectionResponse)
    (hRes : s.Res = some res) (hId : res.Id = some id) (hPeer : s.D.peer_id = some peerId)
    (hAttach : s.Client.connectAnswer s.Client.calls (connectRequest s (some id) peerId) =
      Except.ok r)
    (hGet : s.Client.getAnswer (afterAttach s id peerId).calls (connectGetRequest s) =
      Except.ok response)
    (hStatus : response.RemotePeeringConnection.PeeringStatus =
      RemotePeeringConnectionPeeringStatusPeered) :
    ∃ s1, ConnectRemotePeeringConnection s = Except.ok (none, s1) ∧
      s1.Res = some response.RemotePeeringConnection ∧
      s1.D.peering_status = some RemotePeeringConnectionPeeringStatusPeered ∧
      s1.D.state = some response.RemotePeeringConnection.LifecycleState ∧
      Refreshed response.RemotePeeringConnection.CompartmentId
        s.D.compartment_id s1.D.compartment_id ∧
      Refreshed response.RemotePeeringConnection.DisplayName
        s.D.display_name s1.D.display_name ∧
      Refreshed response.RemotePeeringConnection.DrgId s.D.drg_id s1.D.drg_id ∧
      Refreshed response.RemotePeeringConnection.IsCrossTenancyPeering
        s.D.is_cross_tenancy_peering s1.D.is_cross_tenancy_peering ∧
      Refreshed response.RemotePeeringConnection.PeerId s.D.peer_id s1.D.peer_id ∧
      Refreshed response.RemotePeeringConnection.PeerRegionName
        s.D.peer_region_name s1.D.peer_region_name ∧
      Refreshed response.RemotePeeringConnection.PeerTenancyId
        s.D.peer_tenancy_id s1.D.peer_tenancy_id ∧
      Refreshed (response.RemotePeeringConnection.TimeCreated.map SDKTime.String)
        s.D.time_created s1.D.time_created := by
  refine ⟨_, connect_peered s res id peerId r response hRes hId hPeer hAttach hGet hStatus,
    rfl, ?_⟩
  obtain ⟨fetched⟩ := response
  obtain ⟨cid, dn, drg, rid, ict, ls, pid, prn, ptid, ps, tc⟩ := fetched
  simp only at hStatus
  subst hStatus
  cases cid <;> cases dn <;> cases drg <;> cases ict <;> cases pid <;> cases prn <;>
    cases ptid <;> cases tc <;> simp [SetDataFields, Refreshed]

/-- C6 at a concrete input: the fetch reports `PEERED`, a new display name and no peer
region, so the display name is overwritten and the peer region keeps its local value. -/
theorem connect_success_persists_observed_state_witness :
    ∃ s1, ConnectRemotePeeringConnection
        (exampleSync exampleData (exampleClient none
          (Except.ok (exampleConnection RemotePeeringConnectionPeeringStatusPeered)))) =
          Except.ok (none, s1) ∧
      s1.Res = some (exampleConnection RemotePeeringConnectionPeeringStatusPeered) ∧
      s1.D.peering_status = some "PEERED" ∧
      s1.D.state = some "AVAILABLE" ∧
      Refreshed (some "ocid1.compartment") (some "ocid1.compartment") s1.D.compartment_id ∧
      Refreshed (some "rpc-remote") (some "rpc") s1.D.display_name ∧
      Refreshed (some "ocid1.drg") (some "ocid1.drg") s1.D.drg_id ∧
      Refreshed (some false) none s1.D.is_cross_tenancy_peering ∧
      Refreshed (some "ocid1.rpc.peer") (some "ocid1.rpc.peer") s1.D.peer_id ∧
      Refreshed none (some "us-ashburn-1") s1.D.peer_region_name ∧
      Refreshed (some "ocid1.tenancy.peer") none s1.D.peer_tenancy_id ∧
      Refreshed (some "2019-01-01 00:00:00 +0000 UTC") none s1.D.time_created :=
  connect_success_persists_observed_state
    (exampleSync exampleData (exampleClient none
      (Except.ok (exampleConnection RemotePeeringConnectionPeeringStatusPeered))))
    (exampleConnection RemotePeeringConnectionPeeringStatusNew)
    "ocid1.rpc.local" "ocid1.rpc.peer" {}
    ⟨exampleConnection RemotePeeringConnectionPeeringStatusPeered⟩ rfl rfl rfl rfl rfl rfl

/-- C7. Let `CreateResource` return the error `err` and leave the synchronizer `sync1`.
When `err` is an error the entry point returns it with `sync1` untouched, so the connect
step is not run and nothing is added to the call log. When `err` is nil the entry point's
result is exactly that of the connect step on `sync1`. In both cases the entry point
returns, the calls it issues after `CreateResource` are appended to the log
`CreateResource` left, and an attach call is among them only if `err` is nil. -/
theorem create_completes_before_connect
    (CreateResource : RemotePeeringConnectionResourceCrud →
      Option GoError × RemotePeeringConnectionResourceCrud)
    (d : ResourceData) (m : OracleClients) (err : Option GoError)
    (sync1 : RemotePeeringConnectionResourceCrud)
    (hCreate : CreateResource (newSync d m) = (err, sync1)) :
    (∀ e, err = some e →
      createRemotePeeringConnection CreateResource d m = Except.ok (some e, sync1)) ∧
    (err = none →
      createRemotePeeringConnection CreateResource d m =
        ConnectRemotePeeringConnection sync1) ∧
    ∃ out sync2 new,
      createRemotePeeringConnection CreateResource d m = Except.ok (out, sync2) ∧
      sync2.Client.calls = sync1.Client.calls ++ new ∧
      ∀ request, RemoteCall.ConnectRemotePeeringConnections request ∈ new → err = none := by
  have hCreate1 : CreateResource
      { D := d, Client := m.virtualNetworkClient, Res := none,
        DisableNotFoundRetries := false } = (err, sync1) := hCreate
  cases err with
  | some e =>
    have hrun : createRemotePeeringConnection CreateResource d m =
        Except.ok (some e, sync1) := by
      simp only [createRemotePeeringConnection, hCreate1]
    refine ⟨fun e1 he => ?_, fun h => ?_, some e, sync1, [], hrun, by simp, ?_⟩
    · cases he
      exact hrun
    · cases h
    · intro request hmem
      cases hmem
  | none =>
    have hrun : createRemotePeeringConnection CreateResource d m =
        ConnectRemotePeeringConnection sync1 := by
      simp only [createRemotePeeringConnection, hCreate1]
    obtain ⟨out, sync2, new, hConnect, hCalls⟩ := connect_returns sync1
    refine ⟨fun e1 he => ?_, fun _ => hrun, out, sync2, new, ?_, hCalls, fun _ _ => rfl⟩
    · cases he
    · rw [hrun, hConnect]

/-- C7 at a concrete input: `CreateResource` succeeds and records the created entity, so
the entry point's result is that of the connect step on the synchronizer it left. -/
theorem create_completes_before_connect_witness :
    (∀ e, (none : Option GoError) = some e →
      createRemotePeeringConnection (exampleCreateResource none) exampleData
          ⟨exampleClient none
            (Except.ok (exampleConnection RemotePeeringConnectionPeeringStatusPeered))⟩ =
        Except.ok (some e,
          exampleSync exampleData (exampleClient none
            (Except.ok (exampleConnection RemotePeeringConnectionPeeringStatusPeered))))) ∧
    ((none : Option GoError) = none →
      createRemotePeeringConnection (exampleCreateResource none) exampleData
          ⟨exampleClient none
            (Except.ok (exampleConnection RemotePeeringConnectionPeeringStatusPeered))⟩ =
        ConnectRemotePeeringConnection
          (exampleSync exampleData (exampleClient none
            (Except.ok (exampleConnection RemotePeeringConnectionPeeringStatusPeered))))) ∧
    ∃ out sync2 new,
      createRemotePeeringConnection (exampleCreateResource none) exampleData
          ⟨exampleClient none
            (Except.ok (exampleConnection RemotePeeringConnectionPeeringStatusPeered))⟩ =
        Except.ok (out, sync2) ∧
      sync2.Client.calls =
        (exampleSync exampleData (exampleClient none
          (Except.ok
            (exampleConnection RemotePeeringConnectionPeeringStatusPeered)))).Client.calls ++
          new ∧
      ∀ request, RemoteCall.ConnectRemotePeeringConnections request ∈ new →
        (none : Option GoError) = none :=
  create_completes_before_connect (exampleCreateResource none) exampleData
    ⟨exampleClient none
      (Except.ok (exampleConnection RemotePeeringConnectionPeeringStatusPeered))⟩ none
    (exampleSync exampleData (exampleClient none
      (Except.ok (exampleConnection RemotePeeringConnectionPeeringStatusPeered)))) rfl

/-- C8. The `ShouldRetryOperation` of `getRemotePeeringConnectionRetryPolicy(T)` returns
true exactly when the base decision `shouldRetry(r, false, "core", startTime)` is true, or
`r` holds a `GetRemotePeeringConnectionResponse` with peering status `PENDING` and the
time elapsed since the policy was built is strictly less than `T`. In particular, with
the base decision false, a `PENDING` response is retried exactly while the elapsed time is
below `T`, and a response with any other status is never retried. -/
theorem retry_policy_retries_while_pending (h : RetryHelpers) (T : Duration)
    (r : OCIOperationResponse) :
    ((getRemotePeeringConnectionRetryPolicy h T).ShouldRetryOperation r = true ↔
      h.shouldRetry r false "core" h.timeNow = true ∨
        ∃ g, r.Response = OCIResponse.GetRemotePeeringConnectionResponse g ∧
          g.PeeringStatus = RemotePeeringConnectionPeeringStatusPending ∧
          h.getElapsedRetryDuration h.timeNow < T) ∧
    (∀ g, h.shouldRetry r false "core" h.timeNow = false →
      r.Response = OCIResponse.GetRemotePeeringConnectionResponse g →
      g.PeeringStatus = RemotePeeringConnectionPeeringStatusPending →
      ((getRemotePeeringConnectionRetryPolicy h T).ShouldRetryOperation r = true ↔
        h.getElapsedRetryDuration h.timeNow < T)) ∧
    (∀ g, h.shouldRetry r false "core" h.timeNow = false →
      r.Response = OCIResponse.GetRemotePeeringConnectionResponse g →
      g.PeeringStatus ≠ RemotePeeringConnectionPeeringStatusPending →
      (getRemotePeeringConnectionRetryPolicy h T).ShouldRetryOperation r = false) := by
  obtain ⟨resp, e, n⟩ := r
  refine ⟨?_, ?_, ?_⟩
  · cases hBase : h.shouldRetry ⟨resp, e, n⟩ false "core" h.timeNow with
    | true => simp [getRemotePeeringConnectionRetryPolicy, hBase]
    | false =>
      cases resp with
      | other => simp [getRemotePeeringConnectionRetryPolicy, hBase]
      | GetRemotePeeringConnectionResponse g =>
        by_cases hp : g.PeeringStatus = RemotePeeringConnectionPeeringStatusPending
        · simp [getRemotePeeringConnectionRetryPolicy, hBase, hp]
        · simp [getRemotePeeringConnectionRetryPolicy, hBase, hp]
  · intro g hBase hResp hp
    simp only at hResp
    subst hResp
    simp [getRemotePeeringConnectionRetryPolicy, hBase, hp]
  · intro g hBase hResp hp
    simp only at hResp
    subst hResp
    simp [getRemotePeeringConnectionRetryPolicy, hBase, hp]

/-- C9. The request `Update` sends carries the local id and, exactly when `display_name`
is set locally, that display name; it is the same request whatever the local values of
`compartment_id`, `drg_id`, `peer_id` and `peer_region_name`. That request is the one call
issued. When the remote call succeeds `s.Res` becomes the connection in the response; when
it fails the error is returned unchanged and `s.Res` keeps its previous value. The local
attributes are untouched either way. -/
theorem update_applies_only_mutable_fields (s : RemotePeeringConnectionResourceCrud) :
    (updateRequest s).RemotePeeringConnectionId = some s.D.id ∧
    (updateRequest s).DisplayName = s.D.display_name ∧
    (∀ c g p n : Option String,
      updateRequest { s with D := { s.D with
        compartment_id := c, drg_id := g, peer_id := p, peer_region_name := n } } =
        updateRequest s) ∧
    callsIssued s.Client (Update s).2.Client =
      [RemoteCall.UpdateRemotePeeringConnection (updateRequest s)] ∧
    (Update s).2.D = s.D ∧
    (∀ response, s.Client.updateAnswer s.Client.calls (updateRequest s) = Except.ok response →
      (Update s).1 = none ∧ (Update s).2.Res = some response.RemotePeeringConnection) ∧
    (∀ e, s.Client.updateAnswer s.Client.calls (updateRequest s) = Except.error e →
      (Update s).1 = some e ∧ (Update s).2.Res = s.Res) := by
  refine ⟨rfl, rfl, fun _ _ _ _ => rfl, ?_, ?_, ?_, ?_⟩
  · cases hU : s.Client.updateAnswer s.Client.calls (updateRequest s) <;>
      simp [Update, VirtualNetworkClient.UpdateRemotePeeringConnection, hU, callsIssued]
  · cases hU : s.Client.updateAnswer s.Client.calls (updateRequest s) <;>
      simp [Update, VirtualNetworkClient.UpdateRemotePeeringConnection, hU]
  · intro response hU
    simp [Update, VirtualNetworkClient.UpdateRemotePeeringConnection, hU]
  · intro e hU
    simp [Update, VirtualNetworkClient.UpdateRemotePeeringConnection, hU]

end RemotePeering
